/-
Verification of the agentland support-ticket orchestration engine.

Shallow embedding of the core request-orchestration code:
  * src/agents/triage_agent.py        (routing-response parser, triage node)
  * src/agents/billing_agent.py, technical_agent.py, account_agent.py,
    escalation_agent.py               (specialist nodes)
  * src/orchestration/state.py        (state record, create_initial_state)
  * src/orchestration/edges.py        (route_after_triage)
  * src/orchestration/graph.py        (TicketWorkflow.execute / _execute_workflow)
  * src/llm/retry.py, src/llm/client.py (tenacity retry wrapper, LLMClient.generate)
  * src/llm/token_counter.py          (calculate_cost, TokenUsageTracker)

Modelling conventions:
  * Python strings are `List Char`; Python floats are exact rationals.
  * The external language-model backend and the capability tools are
    collaborators outside the core (spec section 1); their observable
    outcomes (generated text, token counts, tool success flags) are
    supplied by an explicit environment record `Env`.
  * Timestamps are opaque naturals (`datetime.utcnow()` becomes `Env.now`).
  * Raised Python exceptions are `Except` errors; a dict-based state is a
    structure, since `create_initial_state` always populates every key.
-/
import Mathlib

namespace Agentland

/-! ## Character classes used by the parser regexes

Python `re` classes restricted to the ASCII range actually exercised by
the classifier output: `\s` is the six ASCII whitespace characters,
`\w` is alphanumerics plus underscore, and the confidence capture class
`[\d.]` is digits plus the dot. -/

def isPySpace (c : Char) : Bool :=
  c == ' ' || c == '\t' || c == '\n' || c == '\r' || c == '\x0b' || c == '\x0c'

def isWordChar (c : Char) : Bool :=
  c.isAlphanum || c == '_'

def isConfChar (c : Char) : Bool :=
  c.isDigit || c == '.'

/-- Python `str.strip()`: drop whitespace from both ends. -/
def pyStrip (s : List Char) : List Char :=
  ((s.dropWhile isPySpace).reverse.dropWhile isPySpace).reverse

/-- Python `needle in haystack` substring test. -/
def strContains (needle : List Char) : List Char → Bool
  | [] => needle.isEmpty
  | c :: cs => needle.isPrefixOf (c :: cs) || strContains needle cs

/-- Case-insensitive literal match at the head of the input, returning the
remainder on success (models the literal part of an `re.IGNORECASE` pattern). -/
def dropLiteralCI : List Char → List Char → Option (List Char)
  | [], s => some s
  | _ :: _, [] => none
  | k :: ks, c :: cs => if k.toLower = c.toLower then dropLiteralCI ks cs else none

/-- Match `KEY:\s*(CLS+)` at the current position: literal key
(case-insensitive), then greedy whitespace, then a non-empty greedy run of
class characters (the capture).  Because no class character is whitespace,
regex backtracking over `\s*` can never produce a different result, so this
is an exact model of the Python pattern at one position. -/
def matchFieldAt (key : List Char) (cls : Char → Bool) (s : List Char) :
    Option (List Char) :=
  (dropLiteralCI key s).bind fun rest =>
    let tok := (rest.dropWhile isPySpace).takeWhile cls
    if tok.isEmpty then none else some tok

/-- `re.search` semantics: first position (scanning left to right) where the
whole field pattern matches. -/
def searchField (key : List Char) (cls : Char → Bool) : List Char → Option (List Char)
  | [] => matchFieldAt key cls []
  | c :: cs =>
    match matchFieldAt key cls (c :: cs) with
    | some tok => some tok
    | none => searchField key cls cs

/-- Match `REASONING:\s*(.+?)(?:\n|$)` at one position.  After the literal,
greedy `\s*` then a lazy non-empty run of non-newline characters ended by a
newline or end of input.  When some non-whitespace character follows the
whitespace run the capture is everything up to the next newline; when only
whitespace remains, backtracking yields the last non-newline whitespace
character as a one-character capture (or no match if all of it is newlines). -/
def matchReasoningAt (key : List Char) (s : List Char) : Option (List Char) :=
  (dropLiteralCI key s).bind fun rest =>
    let spaces := rest.takeWhile isPySpace
    let tail := rest.dropWhile isPySpace
    match tail with
    | _ :: _ => some (tail.takeWhile (fun c => c != '\n'))
    | [] =>
      match spaces.reverse.find? (fun c => c != '\n') with
      | some c => some [c]
      | none => none

def searchReasoning (key : List Char) : List Char → Option (List Char)
  | [] => matchReasoningAt key []
  | c :: cs =>
    match matchReasoningAt key (c :: cs) with
    | some tok => some tok
    | none => searchReasoning key cs

/-- Value of a nonnegative decimal numeral over the digit characters. -/
def digitsVal (ds : List Char) : ℕ :=
  ds.foldl (fun n c => 10 * n + (c.toNat - 48)) 0

/-- Python `float(token)` for a token drawn from the class `[\d.]`:
defined when the token has at least one digit and at most one dot
(`ValueError` otherwise, modelled as `none`).  The value is exact. -/
def pyFloatOfToken (t : List Char) : Option ℚ :=
  let intPart := t.takeWhile (fun c => c != '.')
  let rest := t.dropWhile (fun c => c != '.')
  match rest with
  | [] => if intPart.isEmpty then none else some (digitsVal intPart)
  | _ :: frac =>
    if frac.any (fun c => c == '.') then none
    else if intPart.isEmpty && frac.isEmpty then none
    else some ((digitsVal intPart : ℚ) + (digitsVal frac : ℚ) / (10 : ℚ) ^ frac.length)

/-! ## Routing decision parser (`TriageAgent._parse_routing_response`) -/

structure Routing where
  urgency : List Char
  assigned_agent : List Char
  confidence_score : ℚ
  reasoning : List Char
deriving DecidableEq

def routeKey : List Char := "route:".toList
def urgencyKey : List Char := "urgency:".toList
def confidenceKey : List Char := "confidence:".toList
def reasoningKey : List Char := "reasoning:".toList

/-- Defaults installed before any field is parsed (triage_agent.py lines
126 to 131).  Any field that fails to parse keeps its default. -/
def routingDefault : Routing :=
  { urgency := "medium".toList
    assigned_agent := "escalation_agent".toList
    confidence_score := 1 / 2
    reasoning := "Could not parse routing decision".toList }

/-- `TriageAgent._parse_routing_response`: four independent regex searches
over the raw classifier text, each overriding one default on success.
A matched confidence token that `float()` rejects is swallowed
(`except ValueError: pass`) and keeps the 0.5 default.  Total function:
the Python code cannot raise. -/
def parseRoutingResponse (response : List Char) : Routing :=
  let r1 :=
    match searchField routeKey isWordChar response with
    | some tok => { routingDefault with assigned_agent := pyStrip tok }
    | none => routingDefault
  let r2 :=
    match searchField urgencyKey isWordChar response with
    | some tok => { r1 with urgency := (pyStrip tok).map Char.toLower }
    | none => r1
  let r3 :=
    match searchField confidenceKey isConfChar response with
    | some tok =>
      match pyFloatOfToken (pyStrip tok) with
      | some v => { r2 with confidence_score := v }
      | none => r2
    | none => r2
  match searchReasoning reasoningKey response with
  | some tok => { r3 with reasoning := pyStrip tok }
  | none => r3

/-! ## Errors, retry policy (`src/llm/retry.py`) and model client (`src/llm/client.py`)

`src/utils/errors.py` declares `LLMError` with subclasses `LLMRateLimitError`
and `LLMTimeoutError`.  The constructors below model the dynamic class of a
raised exception: `llmWrapped` is a plain `LLMError(...)` instance, which is
*not* an instance of either subclass. -/

inductive PyErr where
  | rateLimit (msg : List Char)
  | timeout (msg : List Char)
  | llmWrapped (msg : List Char)
  | other (msg : List Char)
deriving DecidableEq

/-- Python `str(e)`. -/
def PyErr.message : PyErr → List Char
  | .rateLimit m => m
  | .timeout m => m
  | .llmWrapped m => m
  | .other m => m

/-- `retry_if_exception_type((LLMRateLimitError, LLMTimeoutError))` from
`create_retry_decorator`: an isinstance check against the two subclasses. -/
def tenacityShouldRetry : PyErr → Bool
  | .rateLimit _ => true
  | .timeout _ => true
  | _ => false

/-- The tenacity `retry` combinator of `create_retry_decorator` with
`stop_after_attempt` (the count is the second argument), `reraise=True`,
and backoff sleeps abstracted away.  `f i` is the outcome of the i-th
attempt of the decorated body; the result is paired with the number of
attempts actually made. -/
def withRetry (shouldRetry : PyErr → Bool) (f : ℕ → Except PyErr α) :
    ℕ → ℕ → Except PyErr α × ℕ
  | start, 0 => (f start, 1)
  | start, 1 => (f start, 1)
  | start, n + 2 =>
    match f start with
    | .ok a => (.ok a, 1)
    | .error e =>
      if shouldRetry e then
        let r := withRetry shouldRetry f (start + 1) (n + 1)
        (r.1, r.2 + 1)
      else (.error e, 1)

structure LLMResp where
  content : List Char
  prompt_tokens : ℕ
  completion_tokens : ℕ
deriving DecidableEq

/-- The body of `LLMClient.generate`: one underlying call, with the
`except Exception as e: raise LLMError(f"LLM generation failed: {str(e)}")`
handler that re-wraps every failure - including `LLMTimeoutError` and
`LLMRateLimitError` - into a plain `LLMError`. -/
def generateBody (attempt : Except PyErr LLMResp) : Except PyErr LLMResp :=
  match attempt with
  | .ok r => .ok r
  | .error e => .error (.llmWrapped ("LLM generation failed: ".toList ++ e.message))

/-- `LLMClient.generate` as decorated by `retry_on_llm_error =
create_retry_decorator()` (max_attempts = 3).  `underlying i` is the outcome
of the i-th call to the wrapped backend client.  Returns the final outcome
and the number of attempts made. -/
def llmGenerate (underlying : ℕ → Except PyErr LLMResp) : Except PyErr LLMResp × ℕ :=
  withRetry tenacityShouldRetry (fun i => generateBody (underlying i)) 0 3

/-! ## Token counting and cost (`src/llm/token_counter.py`) -/

structure ModelRates where
  input : ℚ
  output : ℚ
deriving DecidableEq

def defaultModelId : List Char := "claude-sonnet-4-5-20250929".toList

/-- The `pricing` dict of `calculate_cost` (dollars per million tokens). -/
def pricingTable : List (List Char × ModelRates) :=
  [(defaultModelId, ⟨3, 15⟩),
   ("claude-sonnet-3-5".toList, ⟨3, 15⟩),
   ("claude-opus-4".toList, ⟨15, 75⟩)]

/-- `pricing.get(model, pricing["claude-sonnet-4-5-20250929"])`: unknown
model ids fall back to the default model row, which is `⟨3, 15⟩`. -/
def modelRates (model : List Char) : ModelRates :=
  (pricingTable.lookup model).getD ⟨3, 15⟩

/-- `calculate_cost`: dollars, exact rational arithmetic in place of the
Python float arithmetic. -/
def calculate_cost (prompt_tokens completion_tokens : ℕ) (model : List Char) : ℚ :=
  (prompt_tokens : ℚ) / 1000000 * (modelRates model).input
    + (completion_tokens : ℚ) / 1000000 * (modelRates model).output

structure TokenUsageTracker where
  total_prompt_tokens : ℕ
  total_completion_tokens : ℕ
  total_cost : ℚ
  calls : ℕ
deriving DecidableEq

/-- `TokenUsageTracker.__init__` (also the effect of `reset`). -/
def TokenUsageTracker.init : TokenUsageTracker := ⟨0, 0, 0, 0⟩

/-- `TokenUsageTracker.track`: accumulate one call.  (The per-call stats
dict it returns carries `cost = calculate_cost ...`, available directly.) -/
def TokenUsageTracker.track (t : TokenUsageTracker)
    (prompt_tokens completion_tokens : ℕ) (model : List Char) : TokenUsageTracker :=
  { total_prompt_tokens := t.total_prompt_tokens + prompt_tokens
    total_completion_tokens := t.total_completion_tokens + completion_tokens
    total_cost := t.total_cost + calculate_cost prompt_tokens completion_tokens model
    calls := t.calls + 1 }

/-! ## Request state (`src/orchestration/state.py`, dict-based flavour)

`create_initial_state` returns a plain dict with every key populated, and
the nodes only ever read keys that exist, so a structure is a faithful
model.  `datetime.utcnow()` values are opaque naturals. -/

structure CustomerContext where
  customer_id : List Char
  tier : List Char
  email : List Char
  account_status : List Char
  history : List (List Char)
deriving DecidableEq

structure TicketContent where
  subject : List Char
  body : List Char
  category_hint : Option (List Char)
deriving DecidableEq

structure Interaction where
  agent_name : List Char
  timestamp : ℕ
  action : List Char
  reasoning : Option (List Char)
  tool_calls : List (List Char)
  result : List Char
deriving DecidableEq

/-- A resolution dict.  `satisfaction_predicted` is present (as `None`)
only in the initial state; every node writes a fresh dict without it,
modelled as `none`. -/
structure Resolution where
  status : List Char
  response : List Char
  requires_human : Bool
  satisfaction_predicted : Option ℚ
deriving DecidableEq

structure TokenUsage where
  prompt : ℕ
  completion : ℕ
deriving DecidableEq

structure Metadata where
  token_usage : List (List Char × TokenUsage)
  latency_ms : List (List Char × ℕ)
  error_count : ℕ
  retry_count : ℕ
deriving DecidableEq

structure AgentState where
  ticket_id : List Char
  correlation_id : List Char
  timestamp : ℕ
  customer_context : CustomerContext
  ticket_content : TicketContent
  routing : Routing
  agent_interactions : List Interaction
  resolution : Resolution
  metadata : Metadata
deriving DecidableEq

/-- `dict[key] = value` on a string-keyed mapping kept as an association
list in insertion order. -/
def setEntry {α : Type} (k : List Char) (v : α) :
    List (List Char × α) → List (List Char × α)
  | [] => [(k, v)]
  | (k', v') :: rest => if k' = k then (k, v) :: rest else (k', v') :: setEntry k v rest

structure TicketArgs where
  ticket_id : List Char
  correlation_id : List Char
  customer_id : List Char
  subject : List Char
  body : List Char
  category_hint : Option (List Char)
  email : List Char
deriving DecidableEq

/-- `create_initial_state` (state.py lines 118 to 177). -/
def createInitialState (now : ℕ) (a : TicketArgs) : AgentState :=
  { ticket_id := a.ticket_id
    correlation_id := a.correlation_id
    timestamp := now
    customer_context :=
      { customer_id := a.customer_id
        tier := "unknown".toList
        email := a.email
        account_status := "unknown".toList
        history := [] }
    ticket_content :=
      { subject := a.subject, body := a.body, category_hint := a.category_hint }
    routing :=
      { urgency := "medium".toList
        assigned_agent := []
        confidence_score := 0
        reasoning := [] }
    agent_interactions := []
    resolution :=
      { status := "pending".toList
        response := []
        requires_human := false
        satisfaction_predicted := none }
    metadata := { token_usage := [], latency_ms := [], error_count := 0, retry_count := 0 } }

/-! ## Environment

Observable behaviour of the external collaborators during one run: the
language-model backend (generated text and token counts per agent) and the
capability tools (registry membership and per-call success flags).  The
spec (section 1) treats both as outside the core, so a run is a function of
this record.  A `some msg` in `triageError` / `specialistError` models the
model-client call of that step raising (every agent calls
`llm_client.generate` before its first state write, so a raising node
leaves the state unchanged). -/

structure Env where
  now : ℕ
  triageContent : List Char
  triagePromptTokens : ℕ
  triageCompletionTokens : ℕ
  billingContent : List Char
  billingPromptTokens : ℕ
  billingCompletionTokens : ℕ
  technicalContent : List Char
  technicalPromptTokens : ℕ
  technicalCompletionTokens : ℕ
  accountContent : List Char
  accountPromptTokens : ℕ
  accountCompletionTokens : ℕ
  escalationContent : List Char
  escalationPromptTokens : ℕ
  escalationCompletionTokens : ℕ
  dbRegistered : Bool
  kbRegistered : Bool
  emailRegistered : Bool
  paymentRegistered : Bool
  triageDbSuccess : Bool
  triageDbFound : Bool
  dbTier : List Char
  dbStatus : List Char
  billingDbSuccess : Bool
  billingHasPayments : Bool
  billingRefundSuccess : Bool
  billingEmailSuccess : Bool
  technicalKbSuccess : Bool
  technicalEmailSuccess : Bool
  accountDbSuccess : Bool
  accountEmailSuccess : Bool
  escalationDbInfoSuccess : Bool
  escalationDbHistorySuccess : Bool
  escalationKbSuccess : Bool
  latencyMs : ℕ
  triageError : Option (List Char)
  specialistError : Option (List Char)

/-! ## Agents (`src/agents/*.py`)

Each `execute` method: optional tool calls (recorded in `tool_calls` by the
tool name, under the same guards as the Python code), one model-client
call, then the state writes - routing or resolution, exactly one appended
interaction stamped with `state.get("timestamp")`, and the agent's
token-usage entry. -/

/-- `TriageAgent.execute`. -/
def triageExecute (env : Env) (s : AgentState) : AgentState :=
  let cid := s.customer_context.customer_id
  let ctx :=
    if cid ≠ [] ∧ env.dbRegistered ∧ env.triageDbSuccess ∧ env.triageDbFound then
      { s.customer_context with tier := env.dbTier, account_status := env.dbStatus }
    else s.customer_context
  let routing := parseRoutingResponse env.triageContent
  { s with
    customer_context := ctx
    routing := routing
    agent_interactions := s.agent_interactions ++
      [{ agent_name := "triage_agent".toList
         timestamp := s.timestamp
         action := "route".toList
         reasoning := some routing.reasoning
         tool_calls := []
         result := "Routed to ".toList ++ routing.assigned_agent }]
    metadata := { s.metadata with
      token_usage := setEntry "triage".toList
        ⟨env.triagePromptTokens, env.triageCompletionTokens⟩ s.metadata.token_usage } }

/-- `BillingAgent.execute`. -/
def billingExecute (env : Env) (s : AgentState) : AgentState :=
  let cid := s.customer_context.customer_id
  let haveHistory := env.dbRegistered && !cid.isEmpty && env.billingDbSuccess
  let tc1 : List (List Char) := if haveHistory then ["database_query".toList] else []
  let refunded := strContains "ACTION: PROCESS_REFUND".toList env.billingContent
    && haveHistory && env.billingHasPayments
    && env.paymentRegistered && env.billingRefundSuccess
  let tc2 : List (List Char) := if refunded then ["payment_gateway".toList] else []
  let tc3 : List (List Char) :=
    if env.emailRegistered && env.billingEmailSuccess then ["email_sender".toList] else []
  { s with
    resolution :=
      { status := "resolved".toList
        response := env.billingContent
        requires_human := false
        satisfaction_predicted := none }
    agent_interactions := s.agent_interactions ++
      [{ agent_name := "billing_agent".toList
         timestamp := s.timestamp
         action := "resolve".toList
         reasoning := some "Processed billing issue with payment tools".toList
         tool_calls := tc1 ++ tc2 ++ tc3
         result := "Issue resolved".toList }]
    metadata := { s.metadata with
      token_usage := setEntry "billing".toList
        ⟨env.billingPromptTokens, env.billingCompletionTokens⟩ s.metadata.token_usage } }

/-- `TechnicalAgent.execute`. -/
def technicalExecute (env : Env) (s : AgentState) : AgentState :=
  let tc1 : List (List Char) :=
    if env.kbRegistered && env.technicalKbSuccess then ["knowledge_base".toList] else []
  let tc2 : List (List Char) :=
    if env.emailRegistered && env.technicalEmailSuccess then ["email_sender".toList] else []
  { s with
    resolution :=
      { status := "resolved".toList
        response := env.technicalContent
        requires_human := false
        satisfaction_predicted := none }
    agent_interactions := s.agent_interactions ++
      [{ agent_name := "technical_agent".toList
         timestamp := s.timestamp
         action := "troubleshoot".toList
         reasoning := some "Searched KB and provided technical guidance".toList
         tool_calls := tc1 ++ tc2
         result := "Troubleshooting guide provided".toList }]
    metadata := { s.metadata with
      token_usage := setEntry "technical".toList
        ⟨env.technicalPromptTokens, env.technicalCompletionTokens⟩ s.metadata.token_usage } }

/-- `AccountAgent.execute`. -/
def accountExecute (env : Env) (s : AgentState) : AgentState :=
  let cid := s.customer_context.customer_id
  let tc1 : List (List Char) :=
    if env.dbRegistered && !cid.isEmpty && env.accountDbSuccess
    then ["database_query".toList] else []
  let tc2 : List (List Char) :=
    if env.emailRegistered && env.accountEmailSuccess then ["email_sender".toList] else []
  { s with
    resolution :=
      { status := "resolved".toList
        response := env.accountContent
        requires_human := false
        satisfaction_predicted := none }
    agent_interactions := s.agent_interactions ++
      [{ agent_name := "account_agent".toList
         timestamp := s.timestamp
         action := "account_management".toList
         reasoning := some "Handled account issue with database lookup".toList
         tool_calls := tc1 ++ tc2
         result := "Account issue resolved".toList }]
    metadata := { s.metadata with
      token_usage := setEntry "account".toList
        ⟨env.accountPromptTokens, env.accountCompletionTokens⟩ s.metadata.token_usage } }

/-- The keyword list of `EscalationAgent._check_human_escalation_needed`. -/
def escalationKeywords : List (List Char) :=
  ["escalat".toList, "human".toList, "manual review".toList, "legal".toList,
   "compliance".toList, "policy exception".toList, "beyond my capability".toList,
   "specialized expertise".toList]

/-- `EscalationAgent._check_human_escalation_needed`: any keyword occurs as
a substring of the lowercased response. -/
def checkHumanEscalationNeeded (response : List Char) : Bool :=
  let lower := response.map Char.toLower
  escalationKeywords.any (fun k => strContains k lower)

/-- `EscalationAgent.execute`. -/
def escalationExecute (env : Env) (s : AgentState) : AgentState :=
  let cid := s.customer_context.customer_id
  let tc1 : List (List Char) :=
    if env.dbRegistered && !cid.isEmpty && env.escalationDbInfoSuccess
    then ["database_query".toList] else []
  let tc2 : List (List Char) :=
    if env.dbRegistered && !cid.isEmpty && env.escalationDbHistorySuccess
    then ["database_query".toList] else []
  let tc3 : List (List Char) :=
    if env.kbRegistered && env.escalationKbSuccess then ["knowledge_base".toList] else []
  let rh := checkHumanEscalationNeeded env.escalationContent
  { s with
    resolution :=
      { status := if rh then "escalated".toList else "resolved".toList
        response := env.escalationContent
        requires_human := rh
        satisfaction_predicted := none }
    agent_interactions := s.agent_interactions ++
      [{ agent_name := "escalation_agent".toList
         timestamp := s.timestamp
         action := if rh then "escalate".toList else "resolve_complex".toList
         reasoning := some "Comprehensive analysis of complex issue".toList
         tool_calls := tc1 ++ tc2 ++ tc3
         result := if rh then "Escalated to human".toList
                   else "Complex issue resolved".toList }]
    metadata := { s.metadata with
      token_usage := setEntry "escalation".toList
        ⟨env.escalationPromptTokens, env.escalationCompletionTokens⟩ s.metadata.token_usage } }

/-! ## Nodes and workflow (`src/orchestration/nodes.py`, `edges.py`, `graph.py`) -/

/-- The per-node wrapper in nodes.py: run the agent, then record the node
duration under `metadata["latency_ms"]` (wall-clock time, supplied by the
environment). -/
def withLatency (env : Env) (node : List Char) (s : AgentState) : AgentState :=
  { s with metadata :=
      { s.metadata with latency_ms := setEntry node env.latencyMs s.metadata.latency_ms } }

def triageNode (env : Env) (s : AgentState) : AgentState :=
  withLatency env "triage".toList (triageExecute env s)

def billingNode (env : Env) (s : AgentState) : AgentState :=
  withLatency env "billing".toList (billingExecute env s)

def technicalNode (env : Env) (s : AgentState) : AgentState :=
  withLatency env "technical".toList (technicalExecute env s)

def accountNode (env : Env) (s : AgentState) : AgentState :=
  withLatency env "account".toList (accountExecute env s)

def escalationNode (env : Env) (s : AgentState) : AgentState :=
  withLatency env "escalation".toList (escalationExecute env s)

/-- `route_after_triage` (edges.py): the `agent_to_node` dict lookup with
default `"escalation"`. -/
def routeAfterTriage (s : AgentState) : List Char :=
  let a := s.routing.assigned_agent
  if a = "billing_agent".toList then "billing".toList
  else if a = "technical_agent".toList then "technical".toList
  else if a = "account_agent".toList then "account".toList
  else if a = "escalation_agent".toList then "escalation".toList
  else "escalation".toList

/-- Keys of the `TicketWorkflow.nodes` dict. -/
def nodeNames : List (List Char) :=
  ["triage".toList, "billing".toList, "technical".toList,
   "account".toList, "escalation".toList]

/-- `self.nodes[next_node](state)`: dispatch through the node dict.  The
final arm is unreachable under the `next_node in self.nodes` guard. -/
def runNode (env : Env) (name : List Char) (s : AgentState) : AgentState :=
  if name = "triage".toList then triageNode env s
  else if name = "billing".toList then billingNode env s
  else if name = "technical".toList then technicalNode env s
  else if name = "account".toList then accountNode env s
  else if name = "escalation".toList then escalationNode env s
  else s

/-- Step 2 of `TicketWorkflow._execute_workflow`: route, execute the chosen
specialist, with the defensive fallback to the escalation node for a name
missing from the node dict. -/
def dispatchSpecialist (env : Env) (s : AgentState) : AgentState :=
  let next := routeAfterTriage s
  if nodeNames.contains next then runNode env next s else escalationNode env s

/-- `TicketWorkflow._execute_workflow`: triage, then exactly one
specialist. -/
def executeWorkflowSteps (env : Env) (s : AgentState) : AgentState :=
  dispatchSpecialist env (triageNode env s)

/-- The body of the `try` in `TicketWorkflow.execute`, with the two
suspension points at which a node can raise.  A failure carries the state
as it stood when the exception escaped the node. -/
def attemptWorkflow (env : Env) (s0 : AgentState) :
    Except (List Char × AgentState) AgentState :=
  match env.triageError with
  | some e => .error (e, s0)
  | none =>
    let s1 := triageNode env s0
    match env.specialistError with
    | some e => .error (e, s1)
    | none => .ok (dispatchSpecialist env s1)

/-- `TicketWorkflow.execute` (the entry point behind `process_ticket`):
create the initial state, run the steps; on any exception bump
`metadata["error_count"]`, force the error resolution onto the state, and
re-raise - the caller receives the exception, the state only travels on the
error branch. -/
def ticketWorkflowExecute (env : Env) (a : TicketArgs) :
    Except (List Char × AgentState) AgentState :=
  let s0 := createInitialState env.now a
  match attemptWorkflow env s0 with
  | .ok s => .ok s
  | .error (e, s) =>
    .error (e,
      { s with
        metadata := { s.metadata with error_count := s.metadata.error_count + 1 }
        resolution :=
          { status := "error".toList
            response :=
              "An error occurred processing your ticket: ".toList ++ e
            requires_human := true
            satisfaction_predicted := none } })

/-- The state as observable after a run: the returned state on success, the
state mutated by the error handler on failure (reachable to the Python
caller only through the raised exception's shared reference). -/
def finalStateOf : Except (List Char × AgentState) AgentState → AgentState
  | .ok s => s
  | .error (_, s) => s

/-- The state carried by a failed run, if any. -/
def errStateOf : Except (List Char × AgentState) AgentState → Option AgentState
  | .ok _ => none
  | .error (_, s) => some s

/-- Whether the caller of `TicketWorkflow.execute` receives a state as the
return value (`false` means an exception propagated to it). -/
def returnsState : Except (List Char × AgentState) AgentState → Bool
  | .ok _ => true
  | .error _ => false

/-! ## Concrete inputs used by witnesses and counterexamples -/

def sampleArgs : TicketArgs :=
  { ticket_id := "T-1001".toList
    correlation_id := "corr-1".toList
    customer_id := "CUST001".toList
    subject := "I was charged twice".toList
    body := "My subscription was billed two times this month".toList
    category_hint := none
    email := "jordan@example.com".toList }

/-- A fully healthy environment: the mock triage output routes to billing,
all tools registered and succeeding, no node raises. -/
def sampleEnv : Env :=
  { now := 100
    triageContent :=
      "ROUTE: billing_agent | URGENCY: medium | CONFIDENCE: 0.92 | REASONING: Customer mentions billing-related terms".toList
    triagePromptTokens := 120
    triageCompletionTokens := 30
    billingContent := "I reviewed your payment history and resolved the duplicate charge.".toList
    billingPromptTokens := 150
    billingCompletionTokens := 60
    technicalContent := "Here are the troubleshooting steps.".toList
    technicalPromptTokens := 140
    technicalCompletionTokens := 50
    accountContent := "I verified your account details.".toList
    accountPromptTokens := 130
    accountCompletionTokens := 40
    escalationContent := "I analyzed the issue and resolved it directly.".toList
    escalationPromptTokens := 160
    escalationCompletionTokens := 70
    dbRegistered := true
    kbRegistered := true
    emailRegistered := true
    paymentRegistered := true
    triageDbSuccess := true
    triageDbFound := true
    dbTier := "pro".toList
    dbStatus := "active".toList
    billingDbSuccess := true
    billingHasPayments := true
    billingRefundSuccess := true
    billingEmailSuccess := true
    technicalKbSuccess := true
    technicalEmailSuccess := true
    accountDbSuccess := true
    accountEmailSuccess := true
    escalationDbInfoSuccess := true
    escalationDbHistorySuccess := true
    escalationKbSuccess := true
    latencyMs := 7
    triageError := none
    specialistError := none }

/-- The healthy environment with the triage-step model call raising an
`LLMError` (the wrapped timeout produced by `LLMClient.generate`). -/
def failingEnv : Env :=
  { sampleEnv with
    triageError := some "LLM generation failed: Request timed out".toList }

/-- Environment whose billing-agent text contains the escalation phrase
from the spec scenario. -/
def keywordEnv : Env :=
  { sampleEnv with
    billingContent := "This case requires human review before any refund.".toList
    escalationContent := "This case requires human review before any refund.".toList }

/-- Classifier output with a numeric CONFIDENCE field but no ROUTE field:
malformed in the claim's sense, yet the parsed confidence is 0.9. -/
def confOnlyText : List Char := "CONFIDENCE: 0.9".toList

/-- Classifier output whose three fields all parse but violate the
routing-decision invariant. -/
def wildText : List Char := "ROUTE: gibberish URGENCY: ultra CONFIDENCE: 5".toList

/-- `requires_human` as the workflow actually maintains it: set exactly on
the escalated and the error resolutions. -/
def statusForcesHuman (st : List Char) : Bool :=
  st == "escalated".toList || st == "error".toList

/-! ## Helper lemmas -/

theorem parse_assigned_agent (r : List Char) :
    (parseRoutingResponse r).assigned_agent =
      match searchField routeKey isWordChar r with
      | some tok => pyStrip tok
      | none => "escalation_agent".toList := by
  unfold parseRoutingResponse
  rcases searchField routeKey isWordChar r with _ | tokR <;>
    rcases searchField urgencyKey isWordChar r with _ | tokU <;>
    rcases searchField confidenceKey isConfChar r with _ | tokC <;>
    rcases searchReasoning reasoningKey r with _ | tokRe <;>
    dsimp only <;>
    first
      | rfl
      | (rcases pyFloatOfToken (pyStrip tokC) with _ | v <;> rfl)

theorem parse_urgency (r : List Char) :
    (parseRoutingResponse r).urgency =
      match searchField urgencyKey isWordChar r with
      | some tok => (pyStrip tok).map Char.toLower
      | none => "medium".toList := by
  unfold parseRoutingResponse
  rcases searchField routeKey isWordChar r with _ | tokR <;>
    rcases searchField urgencyKey isWordChar r with _ | tokU <;>
    rcases searchField confidenceKey isConfChar r with _ | tokC <;>
    rcases searchReasoning reasoningKey r with _ | tokRe <;>
    dsimp only <;>
    first
      | rfl
      | (rcases pyFloatOfToken (pyStrip tokC) with _ | v <;> rfl)

theorem parse_confidence (r : List Char) :
    (parseRoutingResponse r).confidence_score =
      match searchField confidenceKey isConfChar r with
      | some tok =>
        match pyFloatOfToken (pyStrip tok) with
        | some v => v
        | none => 1 / 2
      | none => 1 / 2 := by
  unfold parseRoutingResponse
  rcases searchField routeKey isWordChar r with _ | tokR <;>
    rcases searchField urgencyKey isWordChar r with _ | tokU <;>
    rcases searchField confidenceKey isConfChar r with _ | tokC <;>
    rcases searchReasoning reasoningKey r with _ | tokRe <;>
    dsimp only <;>
    first
      | rfl
      | (rcases pyFloatOfToken (pyStrip tokC) with _ | v <;> rfl)

theorem triageNode_shape (env : Env) (s : AgentState) :
    ∃ r : Interaction,
      (triageNode env s).agent_interactions = s.agent_interactions ++ [r] ∧
      r.agent_name = "triage_agent".toList ∧
      r.timestamp = s.timestamp ∧
      (triageNode env s).timestamp = s.timestamp :=
  ⟨_, rfl, rfl, rfl, rfl⟩

theorem billingNode_shape (env : Env) (s : AgentState) :
    ∃ r : Interaction,
      (billingNode env s).agent_interactions = s.agent_interactions ++ [r] ∧
      r.timestamp = s.timestamp ∧
      (billingNode env s).timestamp = s.timestamp :=
  ⟨_, rfl, rfl, rfl⟩

theorem technicalNode_shape (env : Env) (s : AgentState) :
    ∃ r : Interaction,
      (technicalNode env s).agent_interactions = s.agent_interactions ++ [r] ∧
      r.timestamp = s.timestamp ∧
      (technicalNode env s).timestamp = s.timestamp :=
  ⟨_, rfl, rfl, rfl⟩

theorem accountNode_shape (env : Env) (s : AgentState) :
    ∃ r : Interaction,
      (accountNode env s).agent_interactions = s.agent_interactions ++ [r] ∧
      r.timestamp = s.timestamp ∧
      (accountNode env s).timestamp = s.timestamp :=
  ⟨_, rfl, rfl, rfl⟩

theorem escalationNode_shape (env : Env) (s : AgentState) :
    ∃ r : Interaction,
      (escalationNode env s).agent_interactions = s.agent_interactions ++ [r] ∧
      r.timestamp = s.timestamp ∧
      (escalationNode env s).timestamp = s.timestamp :=
  ⟨_, rfl, rfl, rfl⟩

theorem billingNode_resolution (env : Env) (s : AgentState) :
    (billingNode env s).resolution =
      ⟨"resolved".toList, env.billingContent, false, none⟩ := rfl

theorem technicalNode_resolution (env : Env) (s : AgentState) :
    (technicalNode env s).resolution =
      ⟨"resolved".toList, env.technicalContent, false, none⟩ := rfl

theorem accountNode_resolution (env : Env) (s : AgentState) :
    (accountNode env s).resolution =
      ⟨"resolved".toList, env.accountContent, false, none⟩ := rfl

theorem escalationNode_resolution (env : Env) (s : AgentState) :
    (escalationNode env s).resolution =
      ⟨if checkHumanEscalationNeeded env.escalationContent then "escalated".toList
        else "resolved".toList,
       env.escalationContent,
       checkHumanEscalationNeeded env.escalationContent, none⟩ := rfl

/-- The specialist step always executes one of the four specialist nodes
(the classifier node is never re-entered). -/
theorem dispatch_cases (env : Env) (s : AgentState) :
    dispatchSpecialist env s = billingNode env s ∨
    dispatchSpecialist env s = technicalNode env s ∨
    dispatchSpecialist env s = accountNode env s ∨
    dispatchSpecialist env s = escalationNode env s := by
  unfold dispatchSpecialist routeAfterTriage
  by_cases h1 : s.routing.assigned_agent = "billing_agent".toList
  · rw [h1]; left; rfl
  by_cases h2 : s.routing.assigned_agent = "technical_agent".toList
  · rw [h2]; right; left; rfl
  by_cases h3 : s.routing.assigned_agent = "account_agent".toList
  · rw [h3]; right; right; left; rfl
  by_cases h4 : s.routing.assigned_agent = "escalation_agent".toList
  · rw [h4]; right; right; right; rfl
  · rw [if_neg h1, if_neg h2, if_neg h3, if_neg h4]; right; right; right; rfl

theorem dispatch_shape (env : Env) (s : AgentState) :
    ∃ r : Interaction,
      (dispatchSpecialist env s).agent_interactions = s.agent_interactions ++ [r] ∧
      r.timestamp = s.timestamp ∧
      (dispatchSpecialist env s).timestamp = s.timestamp := by
  rcases dispatch_cases env s with h | h | h | h <;> rw [h]
  · exact billingNode_shape env s
  · exact technicalNode_shape env s
  · exact accountNode_shape env s
  · exact escalationNode_shape env s

/-- A run with no node failure returns the two-step final state. -/
theorem run_success (env : Env) (a : TicketArgs)
    (h1 : env.triageError = none) (h2 : env.specialistError = none) :
    ticketWorkflowExecute env a =
      .ok (dispatchSpecialist env (triageNode env (createInitialState env.now a))) := by
  unfold ticketWorkflowExecute attemptWorkflow
  rw [h1, h2]

/-! ## Claim theorems -/

/-- Claim C1: every successful workflow run performs exactly two node
executions - the triage classifier first, then exactly one specialist - so
the final state's `agent_interactions` has length exactly 2, its first
record belongs to the triage agent, and the interaction timestamps are
non-decreasing in list order. -/
theorem C1_two_interactions (env : Env) (a : TicketArgs)
    (h1 : env.triageError = none) (h2 : env.specialistError = none) :
    (finalStateOf (ticketWorkflowExecute env a)).agent_interactions.length = 2 ∧
    ((finalStateOf (ticketWorkflowExecute env a)).agent_interactions.map
      (fun i => i.agent_name)).head? = some "triage_agent".toList ∧
    List.Chain' (fun i j => i.timestamp ≤ j.timestamp)
      (finalStateOf (ticketWorkflowExecute env a)).agent_interactions := by
  rw [run_success env a h1 h2]
  dsimp only [finalStateOf]
  obtain ⟨r1, hr1, hn1, ht1, hp1⟩ := triageNode_shape env (createInitialState env.now a)
  obtain ⟨r2, hr2, ht2, hp2⟩ :=
    dispatch_shape env (triageNode env (createInitialState env.now a))
  have h0 : (createInitialState env.now a).agent_interactions = [] := rfl
  rw [hr2, hr1, h0]
  refine ⟨by simp, by simp [hn1], ?_⟩
  simp [List.chain'_cons, ht1, ht2, hp1]

/-- Witness for C1: the healthy sample run satisfies both hypotheses and
ends with exactly two interactions. -/
theorem C1_two_interactions_witness :
    sampleEnv.triageError = none ∧ sampleEnv.specialistError = none ∧
    (finalStateOf (ticketWorkflowExecute sampleEnv sampleArgs)).agent_interactions.length = 2 :=
  ⟨rfl, rfl, (C1_two_interactions sampleEnv sampleArgs rfl rfl).1⟩

/-- Claim C2 counterexample: the text consisting only of a numeric
CONFIDENCE field is malformed in the claim's sense (it has no recognizable
ROUTE field), yet the parser returns confidence 0.9 rather than the claimed
0.5.  Only the target falls back. -/
theorem C2_fallback_counterexample :
    searchField routeKey isWordChar confOnlyText = none ∧
    (parseRoutingResponse confOnlyText).assigned_agent = "escalation_agent".toList ∧
    (parseRoutingResponse confOnlyText).confidence_score = 9 / 10 ∧
    (parseRoutingResponse confOnlyText).confidence_score ≠ 1 / 2 := by
  have h : (parseRoutingResponse confOnlyText).confidence_score =
      ((digitsVal ['0'] : ℚ) + (digitsVal ['9'] : ℚ) / (10 : ℚ) ^ (1 : ℕ)) := rfl
  have h0 : digitsVal ['0'] = 0 := rfl
  have h9 : digitsVal ['9'] = 9 := rfl
  refine ⟨by decide, by decide, ?_, ?_⟩
  · rw [h, h0, h9]; norm_num
  · rw [h, h0, h9]; norm_num

/-- Claim C2 as amended: the fallbacks are per field.  Whenever the ROUTE
pattern does not match, the target falls back to the escalation agent;
whenever the CONFIDENCE pattern does not match or its token is rejected by
`float`, the confidence falls back to 0.5.  The parser is a total function,
so it never raises. -/
theorem C2_per_field_fallback (r : List Char) :
    (searchField routeKey isWordChar r = none →
      (parseRoutingResponse r).assigned_agent = "escalation_agent".toList) ∧
    ((searchField confidenceKey isConfChar r).bind
        (fun t => pyFloatOfToken (pyStrip t)) = none →
      (parseRoutingResponse r).confidence_score = 1 / 2) := by
  constructor
  · intro h
    rw [parse_assigned_agent, h]
  · intro h
    rw [parse_confidence]
    rcases hs : searchField confidenceKey isConfChar r with _ | tok
    · rfl
    · rw [hs] at h
      have h2 : pyFloatOfToken (pyStrip tok) = none := h
      dsimp only
      rw [h2]

/-- Witness for C2 as amended, at the unparseable text "hello". -/
theorem C2_per_field_fallback_witness :
    searchField routeKey isWordChar "hello".toList = none ∧
    (searchField confidenceKey isConfChar "hello".toList).bind
      (fun t => pyFloatOfToken (pyStrip t)) = none ∧
    (parseRoutingResponse "hello".toList).assigned_agent = "escalation_agent".toList ∧
    (parseRoutingResponse "hello".toList).confidence_score = 1 / 2 :=
  ⟨by decide, by decide,
   (C2_per_field_fallback ("hello".toList)).1 (by decide),
   (C2_per_field_fallback ("hello".toList)).2 (by decide)⟩

/-- Claim C3 (code bug): `LLMClient.generate` re-wraps every underlying
failure - including `LLMTimeoutError` - into a plain `LLMError` before the
tenacity predicate `retry_if_exception_type((LLMRateLimitError,
LLMTimeoutError))` sees it, so the retry never fires: an always-timing-out
backend is attempted exactly once (the claim and retry.py say three), and a
timeout-then-success backend also fails after exactly one attempt (the
claim says it succeeds on the second).  The third conjunct shows the retry
combinator itself would make 3 attempts if the timeout reached it
unwrapped. -/
theorem C3_retry_never_fires :
    llmGenerate (fun _ => .error (.timeout "Request timed out".toList)) =
      (.error (.llmWrapped "LLM generation failed: Request timed out".toList), 1) ∧
    llmGenerate (fun i => if i = 0 then .error (.timeout "Request timed out".toList)
        else .ok ⟨"generated text".toList, 10, 5⟩) =
      (.error (.llmWrapped "LLM generation failed: Request timed out".toList), 1) ∧
    (withRetry tenacityShouldRetry
      (fun _ => (.error (.timeout "Request timed out".toList) : Except PyErr LLMResp))
      0 3).2 = 3 :=
  ⟨rfl, rfl, rfl⟩


/-- Claim C4 counterexample: the billing node's generated text contains the
escalation phrase "requires human review" (the keyword scan matches it),
yet billing returns status "resolved" with requires_human false - only the
escalation agent scans for the phrases. -/
theorem C4_billing_ignores_keywords :
    checkHumanEscalationNeeded keywordEnv.billingContent = true ∧
    (billingExecute keywordEnv (createInitialState 0 sampleArgs)).resolution.status
      = "resolved".toList ∧
    (billingExecute keywordEnv (createInitialState 0 sampleArgs)).resolution.requires_human
      = false :=
  ⟨by decide, rfl, rfl⟩

/-- Claim C4 as amended: only the escalation specialist scans the generated
text for escalation-indicating phrases, and for it a match forces status
"escalated" with requires_human true; the billing, technical and account
specialists always return status "resolved" with requires_human false, no
matter what text the model generated. -/
theorem C4_keywords_escalation_only (env : Env) (s : AgentState) :
    (checkHumanEscalationNeeded env.escalationContent = true →
      (escalationExecute env s).resolution.status = "escalated".toList ∧
      (escalationExecute env s).resolution.requires_human = true) ∧
    (billingExecute env s).resolution.status = "resolved".toList ∧
    (billingExecute env s).resolution.requires_human = false ∧
    (technicalExecute env s).resolution.status = "resolved".toList ∧
    (technicalExecute env s).resolution.requires_human = false ∧
    (accountExecute env s).resolution.status = "resolved".toList ∧
    (accountExecute env s).resolution.requires_human = false := by
  refine ⟨fun h => ?_, rfl, rfl, rfl, rfl, rfl, rfl⟩
  constructor <;> simp [escalationExecute, h]

/-- Witness for C4 as amended: the keyword environment text "requires human
review" trips the scan, and the escalation node escalates on it. -/
theorem C4_keywords_escalation_only_witness :
    checkHumanEscalationNeeded keywordEnv.escalationContent = true ∧
    (escalationExecute keywordEnv (createInitialState 0 sampleArgs)).resolution.status
      = "escalated".toList :=
  ⟨by decide,
   ((C4_keywords_escalation_only keywordEnv (createInitialState 0 sampleArgs)).1
     (by decide)).1⟩

/-- Claim C5 counterexample: a failed run carries a resolution with
requires_human true while its status is "error", not "escalated", so
requires_human is not equivalent to status = "escalated". -/
theorem C5_error_state_counterexample :
    (finalStateOf (ticketWorkflowExecute failingEnv sampleArgs)).resolution.requires_human
      = true ∧
    (finalStateOf (ticketWorkflowExecute failingEnv sampleArgs)).resolution.status
      = "error".toList ∧
    "error".toList ≠ "escalated".toList :=
  ⟨rfl, rfl, by decide⟩

/-- Claim C5 as amended: in every state produced by the workflow (success
or failure), requires_human holds exactly when the resolution status is
"escalated" or "error". -/
theorem C5_requires_human_iff (env : Env) (a : TicketArgs) :
    (finalStateOf (ticketWorkflowExecute env a)).resolution.requires_human =
      statusForcesHuman (finalStateOf (ticketWorkflowExecute env a)).resolution.status := by
  unfold ticketWorkflowExecute attemptWorkflow
  rcases env.triageError with _ | e
  · rcases env.specialistError with _ | e
    · dsimp only [finalStateOf]
      rcases dispatch_cases env (triageNode env (createInitialState env.now a))
        with h | h | h | h <;> rw [h]
      · rw [billingNode_resolution]; rfl
      · rw [technicalNode_resolution]; rfl
      · rw [accountNode_resolution]; rfl
      · rw [escalationNode_resolution]
        cases checkHumanEscalationNeeded env.escalationContent <;> rfl
    · rfl
  · rfl

/-- Claim C6 counterexample: when the triage node raises, the caller of
`TicketWorkflow.execute` does not receive a state as the return value - the
exception propagates (graph.py re-raises after mutating the state). -/
theorem C6_exception_counterexample :
    returnsState (ticketWorkflowExecute failingEnv sampleArgs) = false ∧
    errStateOf (ticketWorkflowExecute failingEnv sampleArgs) =
      some (finalStateOf (ticketWorkflowExecute failingEnv sampleArgs)) :=
  ⟨rfl, rfl⟩

/-- Claim C6 as amended: the workflow returns a state exactly when no node
failed; on failure it forces resolution status "error" with requires_human
true onto the state and re-raises, so the error travels to the caller as an
exception that carries the well-formed error state rather than as a
returned state. -/
theorem C6_error_forced_then_reraised (env : Env) (a : TicketArgs) :
    returnsState (ticketWorkflowExecute env a) =
      (env.triageError.isNone && env.specialistError.isNone) ∧
    Option.all
      (fun s => (s.resolution.status == "error".toList) && s.resolution.requires_human)
      (errStateOf (ticketWorkflowExecute env a)) = true := by
  unfold ticketWorkflowExecute attemptWorkflow
  rcases env.triageError with _ | e
  · rcases env.specialistError with _ | e
    · exact ⟨rfl, rfl⟩
    · exact ⟨rfl, rfl⟩
  · exact ⟨rfl, rfl⟩


/-- Claim C7 counterexample: the parser copies matched fields from the text
without validation, so classifier output "ROUTE: gibberish URGENCY: ultra
CONFIDENCE: 5" produces a routing decision whose target is outside the
specialist table (under either the node or the agent naming), whose urgency
is not one of low/medium/high/critical, and whose confidence exceeds 1. -/
theorem C7_invariant_counterexample :
    (parseRoutingResponse wildText).assigned_agent = "gibberish".toList ∧
    "gibberish".toList ∉
      ["billing_agent".toList, "technical_agent".toList,
       "account_agent".toList, "escalation_agent".toList] ∧
    "gibberish".toList ∉
      ["billing".toList, "technical".toList, "account".toList, "escalation".toList] ∧
    (parseRoutingResponse wildText).urgency = "ultra".toList ∧
    "ultra".toList ∉
      ["low".toList, "medium".toList, "high".toList, "critical".toList] ∧
    (parseRoutingResponse wildText).confidence_score = 5 ∧
    ¬ (parseRoutingResponse wildText).confidence_score ≤ 1 := by
  have h : (parseRoutingResponse wildText).confidence_score
      = ((digitsVal ['5'] : ℕ) : ℚ) := rfl
  have h5 : digitsVal ['5'] = 5 := rfl
  refine ⟨by decide, by decide, by decide, by decide, by decide, ?_, ?_⟩
  · rw [h, h5]; norm_num
  · rw [h, h5]; norm_num

/-- Claim C7 as amended: the parsed decision satisfies the routing-decision
invariant only through the defaults - when none of the three fields
matches, the target is the escalation agent, the urgency is "medium" and
the confidence is 0.5 ∈ [0,1]; a matched field is copied from the text
unvalidated and can violate the invariant. -/
theorem C7_invariant_only_by_default (r : List Char)
    (h1 : searchField routeKey isWordChar r = none)
    (h2 : searchField urgencyKey isWordChar r = none)
    (h3 : (searchField confidenceKey isConfChar r).bind
      (fun t => pyFloatOfToken (pyStrip t)) = none) :
    (parseRoutingResponse r).assigned_agent ∈
      ["billing_agent".toList, "technical_agent".toList,
       "account_agent".toList, "escalation_agent".toList] ∧
    (parseRoutingResponse r).urgency ∈
      ["low".toList, "medium".toList, "high".toList, "critical".toList] ∧
    0 ≤ (parseRoutingResponse r).confidence_score ∧
    (parseRoutingResponse r).confidence_score ≤ 1 := by
  have ha : (parseRoutingResponse r).assigned_agent = "escalation_agent".toList := by
    rw [parse_assigned_agent, h1]
  have hu : (parseRoutingResponse r).urgency = "medium".toList := by
    rw [parse_urgency, h2]
  have hc : (parseRoutingResponse r).confidence_score = 1 / 2 := by
    rw [parse_confidence]
    rcases hs : searchField confidenceKey isConfChar r with _ | tok
    · rfl
    · rw [hs] at h3
      have h4 : pyFloatOfToken (pyStrip tok) = none := h3
      dsimp only
      rw [h4]
  rw [ha, hu, hc]
  refine ⟨by decide, by decide, by norm_num, by norm_num⟩

/-- Witness for C7 as amended at the fieldless text "hello there". -/
theorem C7_invariant_only_by_default_witness :
    searchField routeKey isWordChar "hello there".toList = none ∧
    searchField urgencyKey isWordChar "hello there".toList = none ∧
    (searchField confidenceKey isConfChar "hello there".toList).bind
      (fun t => pyFloatOfToken (pyStrip t)) = none ∧
    (parseRoutingResponse "hello there".toList).urgency ∈
      ["low".toList, "medium".toList, "high".toList, "critical".toList] :=
  ⟨by decide, by decide, by decide,
   (C7_invariant_only_by_default ("hello there".toList)
     (by decide) (by decide) (by decide)).2.1⟩

/-- Claim C8: the specialist step selects the node through the fixed table
billing_agent → billing, technical_agent → technical, account_agent →
account, escalation_agent → escalation, and every target outside the table
results in the escalation node being executed. -/
theorem C8_fixed_routing_table (env : Env) (s : AgentState) :
    (s.routing.assigned_agent = "billing_agent".toList →
      dispatchSpecialist env s = billingNode env s) ∧
    (s.routing.assigned_agent = "technical_agent".toList →
      dispatchSpecialist env s = technicalNode env s) ∧
    (s.routing.assigned_agent = "account_agent".toList →
      dispatchSpecialist env s = accountNode env s) ∧
    (s.routing.assigned_agent = "escalation_agent".toList →
      dispatchSpecialist env s = escalationNode env s) ∧
    (s.routing.assigned_agent ∉
        ["billing_agent".toList, "technical_agent".toList,
         "account_agent".toList, "escalation_agent".toList] →
      dispatchSpecialist env s = escalationNode env s) := by
  refine ⟨fun h => ?_, fun h => ?_, fun h => ?_, fun h => ?_, fun h => ?_⟩
  · unfold dispatchSpecialist routeAfterTriage; rw [h]; rfl
  · unfold dispatchSpecialist routeAfterTriage; rw [h]; rfl
  · unfold dispatchSpecialist routeAfterTriage; rw [h]; rfl
  · unfold dispatchSpecialist routeAfterTriage; rw [h]; rfl
  · simp only [List.mem_cons, List.not_mem_nil, or_false, not_or] at h
    obtain ⟨h1, h2, h3, h4⟩ := h
    unfold dispatchSpecialist routeAfterTriage
    rw [if_neg h1, if_neg h2, if_neg h3, if_neg h4]
    rfl

/-- Witness for C8: the initial state's empty target is outside the table
and dispatches to the escalation node. -/
theorem C8_fixed_routing_table_witness :
    (createInitialState 0 sampleArgs).routing.assigned_agent ∉
      ["billing_agent".toList, "technical_agent".toList,
       "account_agent".toList, "escalation_agent".toList] ∧
    dispatchSpecialist sampleEnv (createInitialState 0 sampleArgs) =
      escalationNode sampleEnv (createInitialState 0 sampleArgs) :=
  ⟨by decide,
   (C8_fixed_routing_table sampleEnv (createInitialState 0 sampleArgs)).2.2.2.2
     (by decide)⟩

/-- Claim C9: the tracker computes cost as promptTokens/1e6 times the input
rate plus completionTokens/1e6 times the output rate; recording one million
prompt and one million completion tokens for the default model adds exactly
18 dollars (3 + 15) to the running total; unknown model ids fall back to
the default model rates. -/
theorem C9_cost_accounting (t : TokenUsageTracker) (p c : ℕ) (m : List Char)
    (h : pricingTable.lookup m = none) :
    calculate_cost p c defaultModelId
      = (p : ℚ) * 3 / 1000000 + (c : ℚ) * 15 / 1000000 ∧
    (t.track 1000000 1000000 defaultModelId).total_cost = t.total_cost + 18 ∧
    calculate_cost p c m = calculate_cost p c defaultModelId := by
  have hd : modelRates defaultModelId = ⟨3, 15⟩ := rfl
  have hm : modelRates m = ⟨3, 15⟩ := by unfold modelRates; rw [h]; rfl
  have h18 : calculate_cost 1000000 1000000 defaultModelId = 18 := by
    unfold calculate_cost; rw [hd]; norm_num
  refine ⟨?_, ?_, ?_⟩
  · unfold calculate_cost; rw [hd]; ring
  · unfold TokenUsageTracker.track; rw [h18]
  · unfold calculate_cost; rw [hd, hm]

/-- Witness for C9 at an unknown model id. -/
theorem C9_cost_accounting_witness :
    pricingTable.lookup "gpt-4".toList = none ∧
    (TokenUsageTracker.init.track 1000000 1000000 defaultModelId).total_cost
      = TokenUsageTracker.init.total_cost + 18 ∧
    calculate_cost 2 3 "gpt-4".toList = calculate_cost 2 3 defaultModelId :=
  ⟨by decide,
   (C9_cost_accounting TokenUsageTracker.init 2 3 ("gpt-4".toList) (by decide)).2.1,
   (C9_cost_accounting TokenUsageTracker.init 2 3 ("gpt-4".toList) (by decide)).2.2⟩

/-- Claim C10: every interaction record appended by any node during a run
is stamped with the state's creation timestamp (each agent writes
`state.get("timestamp")`, never the node's own execution time), so the
final state keeps the creation timestamp and all interaction timestamps
within one run are that same value - hence all equal. -/
theorem C10_interaction_timestamps (env : Env) (a : TicketArgs) :
    (finalStateOf (ticketWorkflowExecute env a)).timestamp = env.now ∧
    ((finalStateOf (ticketWorkflowExecute env a)).agent_interactions.all
      (fun i => i.timestamp == env.now)) = true := by
  unfold ticketWorkflowExecute attemptWorkflow
  rcases env.triageError with _ | e
  · rcases env.specialistError with _ | e
    · dsimp only [finalStateOf]
      obtain ⟨r1, hr1, hn1, ht1, hp1⟩ := triageNode_shape env (createInitialState env.now a)
      obtain ⟨r2, hr2, ht2, hp2⟩ :=
        dispatch_shape env (triageNode env (createInitialState env.now a))
      have h0 : (createInitialState env.now a).agent_interactions = [] := rfl
      have hts : (createInitialState env.now a).timestamp = env.now := rfl
      constructor
      · rw [hp2, hp1, hts]
      · rw [hr2, hr1, h0]
        simp [ht1, ht2, hp1, hts]
    · dsimp only [finalStateOf]
      obtain ⟨r1, hr1, hn1, ht1, hp1⟩ := triageNode_shape env (createInitialState env.now a)
      have h0 : (createInitialState env.now a).agent_interactions = [] := rfl
      have hts : (createInitialState env.now a).timestamp = env.now := rfl
      constructor
      · show (triageNode env (createInitialState env.now a)).timestamp = env.now
        rw [hp1, hts]
      · show ((triageNode env (createInitialState env.now a)).agent_interactions.all
          (fun i => i.timestamp == env.now)) = true
        rw [hr1, h0]
        simp [ht1, hts]
  · exact ⟨rfl, rfl⟩

end Agentland
